import Mathlib

/-!
Verification of the heatmap selection/transformation pipeline of
`bin/python/heatmap_from_count_table.py` (virID).

The core function `generate_heatmap(df, level, non_sample_cols,
TOP_NUMBER_OF_ROWS, superkingdom, cluster_samples, cluster_taxa)`:

1. filters rows by `superkingdom` (with synonyms `sk__Viruses`/`Viruses`,
   `sk__Bacteria`/`Bacteria`, or `all` for no restriction) and by `level`,
   raising `ValueError` on any other `superkingdom`;
2. computes a per-row mean `agg_mean` over the sample columns, sorts
   descending by it and keeps the first `TOP_NUMBER_OF_ROWS` rows;
3. applies `np.log10` elementwise to the sample columns and replaces the
   resulting `-inf` (from a 0 input) with 0;
4. drops every column whose values are then all exactly 0;
5. returns `''` when no row remains, a plain `sns.heatmap` when exactly one
   row remains, and otherwise a `sns.clustermap` receiving
   `col_cluster=cluster_samples`, `row_cluster=cluster_taxa` and per-row
   `superkingdom`-derived `row_colors`.

The embedding below keeps the raw counts exact as rationals and models the
log-transformed cell values in `ℝ` via `Real.logb 10`.  `pandas.sort_values`
is called with its default (unstable) sort kind, so the order of rows with
equal means is not a guarantee of the source; the sort is modelled with
`List.insertionSort` and the properties proved about the top-N step are the
ones independent of the tie order (length, sortedness, and dominance of kept
means over dropped means).
-/

namespace VirID

/-- One row of the input hit table: the `taxon` index, the `superkingdom`
and `level` annotation columns, and the numeric sample-column values in
column order.  (The other annotation columns, `lineage` and `taxonID`, play
no role in `generate_heatmap` and are omitted.) -/
structure Row where
  taxon : String
  superkingdom : String
  level : String
  counts : List ℚ
deriving Repr, DecidableEq, Inhabited

/-- The input table: the ordered sample-column names (the columns not in
`non_sample_cols`) and the rows. -/
structure AbundanceTable where
  sampleCols : List String
  rows : List Row
deriving Repr, DecidableEq, Inhabited

/-- Column-partition invariant: every row has one value per sample column. -/
def WF (df : AbundanceTable) : Prop :=
  ∀ r ∈ df.rows, r.counts.length = df.sampleCols.length

/-- The three recognized `superkingdom` arguments; anything else makes
`generate_heatmap` raise `ValueError`. -/
def validSuperkingdom (sk : String) : Bool :=
  sk == "Virus" || sk == "Bacteria" || sk == "all"

/-- The row mask computed by the `if/elif` chain on `superkingdom`:
`df.superkingdom.isin([...]) & df.level.isin([level])`, or only the level
test for `"all"`.  (For an unrecognized `superkingdom` the source raises
before building any mask; `generate_heatmap` below checks
`validSuperkingdom` first, so the final branch here is only ever reached
with `sk = "all"`.) -/
def rowMatch (superkingdom level : String) (r : Row) : Bool :=
  if superkingdom == "Virus" then
    (r.superkingdom == "sk__Viruses" || r.superkingdom == "Viruses")
      && r.level == level
  else if superkingdom == "Bacteria" then
    (r.superkingdom == "sk__Bacteria" || r.superkingdom == "Bacteria")
      && r.level == level
  else
    r.level == level

/-- Embedding of `df = df[rows]`: the rows surviving the rank/domain
filter. -/
def filteredRows (df : AbundanceTable) (superkingdom level : String) :
    List Row :=
  df.rows.filter (rowMatch superkingdom level)

/-- Embedding of `df['agg_mean'] = df[sample_cols].mean(axis=1)`: the
arithmetic mean of the raw (pre-log) sample values of a row. -/
def agg_mean (r : Row) : ℚ :=
  r.counts.sum / r.counts.length

/-- The comparison used by `df.sort_values('agg_mean', ascending=False)`:
`a` may precede `b` when `a`'s mean is at least `b`'s. -/
def byMeanDesc (a b : Row) : Prop :=
  agg_mean b ≤ agg_mean a

instance : DecidableRel byMeanDesc :=
  fun a b => inferInstanceAs (Decidable (agg_mean b ≤ agg_mean a))

instance : IsTotal Row byMeanDesc :=
  ⟨fun a b => le_total (agg_mean b) (agg_mean a)⟩

instance : IsTrans Row byMeanDesc :=
  ⟨fun _ _ _ h₁ h₂ => le_trans h₂ h₁⟩

/-- Embedding of
`df.sort_values('agg_mean', ascending=False).head(TOP_NUMBER_OF_ROWS)`:
sort descending by the raw mean and keep at most `N` rows. -/
def topRows (df : AbundanceTable) (superkingdom level : String) (N : ℕ) :
    List Row :=
  (List.insertionSort byMeanDesc (filteredRows df superkingdom level)).take N

/-- Embedding of `df[sample_cols].apply(np.log10).replace(np.NINF, 0)` on
one cell: `log10 0 = -inf` is replaced by 0; a positive cell becomes its
base-10 logarithm. -/
noncomputable def logCell (x : ℚ) : ℝ :=
  if x = 0 then 0 else Real.logb 10 (x : ℝ)

/-- Decides `logCell x = 0`: for base 10 this happens exactly on the inputs
`0`, `1` and `-1` (see `logCell_eq_zero_iff`). -/
def cellLogIsZero (x : ℚ) : Bool :=
  x == 0 || x == 1 || x == -1

/-- The per-column mask of `df.loc[:, (df != 0).any(axis=0)]` restricted to
sample column `j`: the column survives iff some retained row has a non-zero
post-log value there. -/
def keepColumn (rows : List Row) (j : ℕ) : Bool :=
  rows.any fun r => !cellLogIsZero (r.counts.getD j 0)

/-- The indices of the sample columns kept by the degenerate-column
pruning. -/
def keptIndices (df : AbundanceTable) (rows : List Row) : List ℕ :=
  (List.range df.sampleCols.length).filter (keepColumn rows)

/-- How the result is rendered: `sns.heatmap` (single row, no clustering
arguments) or `sns.clustermap` with `col_cluster`, `row_cluster` and the
per-row `superkingdom`-derived `row_colors`. -/
inductive RenderMode where
  | plain : RenderMode
  | clustered (col_cluster row_cluster : Bool) (row_colors : List String) :
      RenderMode
deriving Repr

/-- The matrix handed to the renderer: kept sample-column names, the row
index (taxa), the log-transformed cell values restricted to the kept
columns, and the rendering mode. -/
structure ReducedMatrix where
  sampleCols : List String
  taxa : List String
  cells : List (List ℝ)
  mode : RenderMode

/-- The value `generate_heatmap` returns: `''` (nothing to render) or a
drawn heatmap of a reduced matrix. -/
inductive HeatmapResult where
  | empty : HeatmapResult
  | rendered (m : ReducedMatrix) : HeatmapResult

/-- Builds the reduced matrix from the retained rows and kept column
indices. -/
noncomputable def buildMatrix (df : AbundanceTable) (top : List Row)
    (kept : List ℕ) (mode : RenderMode) : ReducedMatrix :=
  { sampleCols := kept.map fun j => df.sampleCols.getD j ""
    taxa := top.map (·.taxon)
    cells := top.map fun r => kept.map fun j => logCell (r.counts.getD j 0)
    mode := mode }

/-- The ValueError message of the source, for an unrecognized
`superkingdom`. -/
def superkingdomError (sk : String) : String :=
  "Superkingdom value must be 'Virus', 'Bacteria', or 'all'." ++
    " You entered " ++ sk

/-- The core pipeline `generate_heatmap` (diagnostic printing elided):
validate `superkingdom`, filter rows, take the top `TOP_NUMBER_OF_ROWS` by
raw mean, log-transform, prune all-zero columns, then return `''`, a plain
heatmap, or a clustermap according to the number of remaining rows. -/
noncomputable def generate_heatmap (df : AbundanceTable) (level : String)
    (TOP_NUMBER_OF_ROWS : ℕ) (superkingdom : String)
    (cluster_samples cluster_taxa : Bool) : Except String HeatmapResult :=
  if validSuperkingdom superkingdom then
    let top := topRows df superkingdom level TOP_NUMBER_OF_ROWS
    let kept := keptIndices df top
    if top.length = 0 then
      .ok .empty
    else if top.length = 1 then
      .ok (.rendered (buildMatrix df top kept .plain))
    else
      .ok (.rendered (buildMatrix df top kept
        (.clustered cluster_samples cluster_taxa
          (top.map (·.superkingdom)))))
  else
    .error (superkingdomError superkingdom)

/-! ### Basic lemmas about the embedded pipeline -/

theorem validSuperkingdom_iff {sk : String} :
    validSuperkingdom sk = true ↔ sk = "Virus" ∨ sk = "Bacteria" ∨ sk = "all" := by
  simp [validSuperkingdom, or_assoc]

theorem mem_filteredRows {df : AbundanceTable} {sk level : String} {r : Row} :
    r ∈ filteredRows df sk level ↔ r ∈ df.rows ∧ rowMatch sk level r = true := by
  simp [filteredRows, List.mem_filter]

theorem rowMatch_level {sk level : String} {r : Row}
    (h : rowMatch sk level r = true) : r.level = level := by
  unfold rowMatch at h
  split at h
  · simp_all
  · split at h <;> simp_all

theorem topRows_subset {df : AbundanceTable} {sk level : String} {N : ℕ}
    {r : Row} (h : r ∈ topRows df sk level N) : r ∈ df.rows := by
  have h1 : r ∈ List.insertionSort byMeanDesc (filteredRows df sk level) :=
    List.mem_of_mem_take h
  rw [List.mem_insertionSort] at h1
  exact (mem_filteredRows.mp h1).1

theorem logCell_of_zero : logCell 0 = 0 := by
  simp [logCell]

theorem logCell_of_pos {x : ℚ} (hx : 0 < x) :
    logCell x = Real.logb 10 (x : ℝ) := by
  rw [logCell, if_neg hx.ne']

theorem logCell_eq_zero_iff {x : ℚ} :
    logCell x = 0 ↔ x = 0 ∨ x = 1 ∨ x = -1 := by
  by_cases hx : x = 0
  · simp [logCell, hx]
  · rw [logCell, if_neg hx, Real.logb_eq_zero]
    norm_num [hx]
    constructor
    · rintro (h | h) <;> [left; right] <;> exact_mod_cast h
    · rintro (h | h) <;> [left; right] <;> exact_mod_cast h

theorem cellLogIsZero_iff {x : ℚ} :
    cellLogIsZero x = true ↔ logCell x = 0 := by
  rw [logCell_eq_zero_iff]
  simp [cellLogIsZero, or_assoc]

theorem keepColumn_iff {rows : List Row} {j : ℕ} :
    keepColumn rows j = true ↔ ∃ r ∈ rows, logCell (r.counts.getD j 0) ≠ 0 := by
  simp only [keepColumn, List.any_eq_true, Bool.not_eq_true',
    ← Bool.not_eq_true, cellLogIsZero_iff]

theorem mem_keptIndices {df : AbundanceTable} {rows : List Row} {j : ℕ} :
    j ∈ keptIndices df rows ↔
      j < df.sampleCols.length ∧ keepColumn rows j = true := by
  simp [keptIndices, List.mem_filter, List.mem_range]

theorem generate_heatmap_invalid {df : AbundanceTable} {level : String}
    {N : ℕ} {sk : String} {cs ct : Bool}
    (hsk : validSuperkingdom sk = false) :
    generate_heatmap df level N sk cs ct = .error (superkingdomError sk) := by
  simp [generate_heatmap, hsk]

theorem generate_heatmap_valid {df : AbundanceTable} {level : String}
    {N : ℕ} {sk : String} {cs ct : Bool}
    (hsk : validSuperkingdom sk = true) :
    generate_heatmap df level N sk cs ct =
      (if (topRows df sk level N).length = 0 then .ok .empty
       else if (topRows df sk level N).length = 1 then
         .ok (.rendered (buildMatrix df (topRows df sk level N)
           (keptIndices df (topRows df sk level N)) .plain))
       else
         .ok (.rendered (buildMatrix df (topRows df sk level N)
           (keptIndices df (topRows df sk level N))
           (.clustered cs ct
             ((topRows df sk level N).map (·.superkingdom)))))) := by
  simp only [generate_heatmap, hsk, if_true]

/-- Any successfully rendered matrix is the `buildMatrix` of the top rows and
kept column indices, with the mode decided by the retained row count. -/
theorem rendered_eq {df : AbundanceTable} {level : String} {N : ℕ}
    {sk : String} {cs ct : Bool} {m : ReducedMatrix}
    (h : generate_heatmap df level N sk cs ct = .ok (.rendered m)) :
    validSuperkingdom sk = true ∧
    1 ≤ (topRows df sk level N).length ∧
    m = buildMatrix df (topRows df sk level N)
          (keptIndices df (topRows df sk level N))
          (if (topRows df sk level N).length = 1 then .plain
           else .clustered cs ct
             ((topRows df sk level N).map (·.superkingdom))) := by
  by_cases hsk : validSuperkingdom sk = true
  · rw [generate_heatmap_valid hsk] at h
    refine ⟨hsk, ?_, ?_⟩
    · rcases eq_or_ne (topRows df sk level N).length 0 with h0 | h0
      · rw [if_pos h0] at h; simp at h
      · omega
    · rcases eq_or_ne (topRows df sk level N).length 0 with h0 | h0
      · rw [if_pos h0] at h; simp at h
      · rw [if_neg h0] at h
        rcases eq_or_ne (topRows df sk level N).length 1 with h1 | h1
        · rw [if_pos h1] at h
          rw [if_pos h1]
          simpa using h.symm
        · rw [if_neg h1] at h
          rw [if_neg h1]
          simpa using h.symm
  · rw [generate_heatmap_invalid (by simpa using hsk)] at h
    simp at h

theorem buildMatrix_cells_length (df : AbundanceTable) (top : List Row)
    (kept : List ℕ) (mode : RenderMode) :
    (buildMatrix df top kept mode).cells.length = top.length := by
  simp [buildMatrix]

theorem getD_map_of_lt {α β : Type _} (f : α → β) (l : List α) (d : β)
    {i : ℕ} (hi : i < l.length) :
    (l.map f).getD i d = f (l.get ⟨i, hi⟩) := by
  rw [List.getD_eq_getElem _ _ (by simpa using hi), List.getElem_map]
  simp

theorem buildMatrix_row (df : AbundanceTable) (top : List Row)
    (kept : List ℕ) (mode : RenderMode) {i : ℕ} (hi : i < top.length) :
    (buildMatrix df top kept mode).cells.getD i [] =
      kept.map fun k => logCell ((top.get ⟨i, hi⟩).counts.getD k 0) :=
  getD_map_of_lt _ _ _ hi

theorem buildMatrix_row_length (df : AbundanceTable) (top : List Row)
    (kept : List ℕ) (mode : RenderMode) {i : ℕ} (hi : i < top.length) :
    ((buildMatrix df top kept mode).cells.getD i []).length = kept.length := by
  rw [buildMatrix_row df top kept mode hi, List.length_map]

theorem buildMatrix_cell (df : AbundanceTable) (top : List Row)
    (kept : List ℕ) (mode : RenderMode) {i j : ℕ}
    (hi : i < top.length) (hj : j < kept.length) :
    ((buildMatrix df top kept mode).cells.getD i []).getD j 0 =
      logCell ((top.get ⟨i, hi⟩).counts.getD (kept.get ⟨j, hj⟩) 0) := by
  rw [buildMatrix_row df top kept mode hi, getD_map_of_lt _ _ _ hj]

/-! ### Claim theorems -/

/-- C4: for every valid `criteria.domain` in `{"Virus","Bacteria","all"}`,
every row retained by the filtering step has a rank label equal to
`criteria.rank`; for `"Virus"` and `"Bacteria"` its domain label is one of
the accepted synonyms of that domain, and `"all"` imposes no domain
restriction. -/
theorem c4_domain_rank_filter (df : AbundanceTable) (level sk : String)
    (hsk : validSuperkingdom sk = true) :
    (∀ r ∈ filteredRows df sk level, r.level = level) ∧
    (sk = "Virus" → ∀ r ∈ filteredRows df sk level,
      r.superkingdom = "sk__Viruses" ∨ r.superkingdom = "Viruses") ∧
    (sk = "Bacteria" → ∀ r ∈ filteredRows df sk level,
      r.superkingdom = "sk__Bacteria" ∨ r.superkingdom = "Bacteria") ∧
    (sk = "all" → ∀ r ∈ df.rows, r.level = level →
      r ∈ filteredRows df sk level) := by
  refine ⟨?_, ?_, ?_, ?_⟩
  · intro r hr
    exact rowMatch_level (mem_filteredRows.mp hr).2
  · rintro rfl r hr
    have h := (mem_filteredRows.mp hr).2
    simp [rowMatch] at h
    tauto
  · rintro rfl r hr
    have h := (mem_filteredRows.mp hr).2
    simp [rowMatch] at h
    tauto
  · rintro rfl r hr hlev
    rw [mem_filteredRows]
    exact ⟨hr, by simp [rowMatch, hlev]⟩

/-- Witness for C4 at a concrete single-row viral table. -/
theorem c4_domain_rank_filter_witness :
    (∀ r ∈ filteredRows ⟨["s1"], [⟨"t", "Viruses", "genus", [5]⟩]⟩
        "Virus" "genus", r.level = "genus") ∧
    ("Virus" = "Virus" →
      ∀ r ∈ filteredRows ⟨["s1"], [⟨"t", "Viruses", "genus", [5]⟩]⟩
        "Virus" "genus",
        r.superkingdom = "sk__Viruses" ∨ r.superkingdom = "Viruses") ∧
    ("Virus" = "Bacteria" →
      ∀ r ∈ filteredRows ⟨["s1"], [⟨"t", "Viruses", "genus", [5]⟩]⟩
        "Virus" "genus",
        r.superkingdom = "sk__Bacteria" ∨ r.superkingdom = "Bacteria") ∧
    ("Virus" = "all" →
      ∀ r ∈ (⟨["s1"], [⟨"t", "Viruses", "genus", [5]⟩]⟩ : AbundanceTable).rows,
        r.level = "genus" →
        r ∈ filteredRows ⟨["s1"], [⟨"t", "Viruses", "genus", [5]⟩]⟩
          "Virus" "genus") :=
  c4_domain_rank_filter ⟨["s1"], [⟨"t", "Viruses", "genus", [5]⟩]⟩
    "genus" "Virus" (by decide)

/-- C5: if zero rows remain after filtering and top-N selection the pipeline
returns the empty result (not an error); an empty table, `N = 0`, or a rank
absent from the table each yield the empty result, which is distinguishable
from every rendered result. -/
theorem c5_empty_policy (df : AbundanceTable) (level : String) (N : ℕ)
    (sk : String) (cs ct : Bool) (hsk : validSuperkingdom sk = true) :
    (generate_heatmap df level N sk cs ct = .ok .empty ↔
      topRows df sk level N = []) ∧
    (df.rows = [] → generate_heatmap df level N sk cs ct = .ok .empty) ∧
    (N = 0 → generate_heatmap df level N sk cs ct = .ok .empty) ∧
    ((∀ r ∈ df.rows, r.level ≠ level) →
      generate_heatmap df level N sk cs ct = .ok .empty) ∧
    (∀ m : ReducedMatrix, (HeatmapResult.empty : HeatmapResult) ≠ .rendered m) := by
  have hmain : topRows df sk level N = [] →
      generate_heatmap df level N sk cs ct = .ok .empty := by
    intro h0
    rw [generate_heatmap_valid hsk, h0]
    simp
  refine ⟨⟨?_, hmain⟩, ?_, ?_, ?_, ?_⟩
  · intro h
    rw [generate_heatmap_valid hsk] at h
    rcases eq_or_ne (topRows df sk level N).length 0 with h0 | h0
    · exact List.length_eq_zero.mp h0
    · rw [if_neg h0] at h
      rcases eq_or_ne (topRows df sk level N).length 1 with h1 | h1
      · rw [if_pos h1] at h; simp at h
      · rw [if_neg h1] at h; simp at h
  · intro hrows
    apply hmain
    simp only [topRows, filteredRows, hrows, List.filter_nil]
    exact List.take_nil
  · rintro rfl
    apply hmain
    simp [topRows]
  · intro hlev
    apply hmain
    have hfil : filteredRows df sk level = [] := by
      rw [filteredRows, List.filter_eq_nil_iff]
      intro r hr hmatch
      exact hlev r hr (rowMatch_level hmatch)
    simp only [topRows, hfil]
    exact List.take_nil
  · intro m h
    exact HeatmapResult.noConfusion h

/-- Witness for C5: no row matches `superkingdom = "Bacteria"` at
`level = "species"`, so the result is the empty result. -/
theorem c5_empty_policy_witness :
    (generate_heatmap ⟨["s1"], [⟨"t", "Viruses", "genus", [5]⟩]⟩
        "species" 3 "Bacteria" true true = .ok .empty ↔
      topRows ⟨["s1"], [⟨"t", "Viruses", "genus", [5]⟩]⟩
        "Bacteria" "species" 3 = []) ∧
    ((⟨["s1"], [⟨"t", "Viruses", "genus", [5]⟩]⟩ : AbundanceTable).rows = [] →
      generate_heatmap ⟨["s1"], [⟨"t", "Viruses", "genus", [5]⟩]⟩
        "species" 3 "Bacteria" true true = .ok .empty) ∧
    ((3 : ℕ) = 0 →
      generate_heatmap ⟨["s1"], [⟨"t", "Viruses", "genus", [5]⟩]⟩
        "species" 3 "Bacteria" true true = .ok .empty) ∧
    ((∀ r ∈ (⟨["s1"], [⟨"t", "Viruses", "genus", [5]⟩]⟩ : AbundanceTable).rows,
        r.level ≠ "species") →
      generate_heatmap ⟨["s1"], [⟨"t", "Viruses", "genus", [5]⟩]⟩
        "species" 3 "Bacteria" true true = .ok .empty) ∧
    (∀ m : ReducedMatrix, (HeatmapResult.empty : HeatmapResult) ≠ .rendered m) :=
  c5_empty_policy ⟨["s1"], [⟨"t", "Viruses", "genus", [5]⟩]⟩
    "species" 3 "Bacteria" true true (by decide)

/-- C7: the pipeline fails if and only if `superkingdom` is not one of
`"Virus"`, `"Bacteria"`, `"all"`; in that case the error is the same
`ValueError` for every table, level and parameter set, so nothing is
computed from the data before failing. -/
theorem c7_invalid_domain (df : AbundanceTable) (level : String) (N : ℕ)
    (sk : String) (cs ct : Bool) :
    ((∃ e, generate_heatmap df level N sk cs ct = .error e) ↔
      ¬(sk = "Virus" ∨ sk = "Bacteria" ∨ sk = "all")) ∧
    (¬(sk = "Virus" ∨ sk = "Bacteria" ∨ sk = "all") →
      ∀ (df₂ : AbundanceTable) (level₂ : String) (N₂ : ℕ) (cs₂ ct₂ : Bool),
        generate_heatmap df₂ level₂ N₂ sk cs₂ ct₂ =
          .error (superkingdomError sk)) := by
  by_cases hsk : validSuperkingdom sk = true
  · have hvalid := validSuperkingdom_iff.mp hsk
    refine ⟨⟨?_, fun hne => absurd hvalid hne⟩, fun hne => absurd hvalid hne⟩
    rintro ⟨e, he⟩
    rw [generate_heatmap_valid hsk] at he
    split at he
    · exact absurd he (by simp)
    · split at he <;> exact absurd he (by simp)
  · have hsk' : validSuperkingdom sk = false := by simpa using hsk
    have hnames : ¬(sk = "Virus" ∨ sk = "Bacteria" ∨ sk = "all") := by
      intro h
      exact hsk (validSuperkingdom_iff.mpr h)
    refine ⟨⟨fun _ => hnames, fun _ => ⟨_, generate_heatmap_invalid hsk'⟩⟩, ?_⟩
    intro _ df₂ level₂ N₂ cs₂ ct₂
    exact generate_heatmap_invalid hsk'

/-- Witness for C7: `superkingdom = "Fungi"` fails with the ValueError. -/
theorem c7_invalid_domain_witness :
    generate_heatmap ⟨["s1"], [⟨"t", "Viruses", "genus", [5]⟩]⟩
        "genus" 5 "Fungi" true true = .error (superkingdomError "Fungi") :=
  (c7_invalid_domain ⟨["s1"], [⟨"t", "Viruses", "genus", [5]⟩]⟩
      "genus" 5 "Fungi" true true).2 (by decide)
    ⟨["s1"], [⟨"t", "Viruses", "genus", [5]⟩]⟩ "genus" 5 true true

/-- C10: the pipeline is deterministic — two invocations on the same table
and criteria produce identical results. -/
theorem c10_deterministic (df : AbundanceTable) (level : String) (N : ℕ)
    (sk : String) (cs ct : Bool) (r₁ r₂ : Except String HeatmapResult)
    (h₁ : generate_heatmap df level N sk cs ct = r₁)
    (h₂ : generate_heatmap df level N sk cs ct = r₂) :
    r₁ = r₂ :=
  h₁.symm.trans h₂

/-- Witness for C10 on a concrete (empty) table. -/
theorem c10_deterministic_witness :
    (Except.ok HeatmapResult.empty : Except String HeatmapResult) =
      .ok .empty :=
  c10_deterministic ⟨[], []⟩ "genus" 5 "all" true true _ _ rfl rfl

/-- C1: after top-N selection the number of retained rows is
`min N (count of filtered rows)`, the retained rows are sorted in
descending order of their raw (pre-log) per-row mean, and they dominate
every filtered row that was dropped. -/
theorem c1_topN_selection (df : AbundanceTable) (level sk : String) (N : ℕ)
    (_hsk : validSuperkingdom sk = true) :
    (topRows df sk level N).length = min N (filteredRows df sk level).length ∧
    (topRows df sk level N).Sorted byMeanDesc ∧
    ∃ rest : List Row,
      (topRows df sk level N ++ rest).Perm (filteredRows df sk level) ∧
      ∀ r ∈ topRows df sk level N, ∀ s ∈ rest, agg_mean s ≤ agg_mean r := by
  refine ⟨?_, ?_, ?_⟩
  · simp [topRows]
  · exact List.Pairwise.sublist (List.take_sublist N _)
      (List.sorted_insertionSort byMeanDesc (filteredRows df sk level))
  · refine ⟨(List.insertionSort byMeanDesc (filteredRows df sk level)).drop N,
      ?_, ?_⟩
    · simp only [topRows, List.take_append_drop]
      exact List.perm_insertionSort byMeanDesc _
    · intro r hr s hs
      have hsorted :=
        List.sorted_insertionSort byMeanDesc (filteredRows df sk level)
      exact (List.pairwise_append.mp
        (by simp only [topRows]
            rw [List.take_append_drop]
            exact hsorted)).2.2 r hr s hs

/-- Witness for C1: three genus-level viral rows with sample means
`[10, 100, 1]` and `N = 2`. -/
theorem c1_topN_selection_witness :
    (topRows ⟨["s1"], [⟨"a", "Viruses", "genus", [10]⟩,
        ⟨"b", "Viruses", "genus", [100]⟩,
        ⟨"c", "Viruses", "genus", [1]⟩]⟩ "Virus" "genus" 2).length =
      min 2 (filteredRows ⟨["s1"], [⟨"a", "Viruses", "genus", [10]⟩,
        ⟨"b", "Viruses", "genus", [100]⟩,
        ⟨"c", "Viruses", "genus", [1]⟩]⟩ "Virus" "genus").length ∧
    (topRows ⟨["s1"], [⟨"a", "Viruses", "genus", [10]⟩,
        ⟨"b", "Viruses", "genus", [100]⟩,
        ⟨"c", "Viruses", "genus", [1]⟩]⟩ "Virus" "genus" 2).Sorted byMeanDesc ∧
    ∃ rest : List Row,
      (topRows ⟨["s1"], [⟨"a", "Viruses", "genus", [10]⟩,
          ⟨"b", "Viruses", "genus", [100]⟩,
          ⟨"c", "Viruses", "genus", [1]⟩]⟩ "Virus" "genus" 2 ++ rest).Perm
        (filteredRows ⟨["s1"], [⟨"a", "Viruses", "genus", [10]⟩,
          ⟨"b", "Viruses", "genus", [100]⟩,
          ⟨"c", "Viruses", "genus", [1]⟩]⟩ "Virus" "genus") ∧
      ∀ r ∈ topRows ⟨["s1"], [⟨"a", "Viruses", "genus", [10]⟩,
          ⟨"b", "Viruses", "genus", [100]⟩,
          ⟨"c", "Viruses", "genus", [1]⟩]⟩ "Virus" "genus" 2,
        ∀ s ∈ rest, agg_mean s ≤ agg_mean r :=
  c1_topN_selection ⟨["s1"], [⟨"a", "Viruses", "genus", [10]⟩,
    ⟨"b", "Viruses", "genus", [100]⟩,
    ⟨"c", "Viruses", "genus", [1]⟩]⟩ "genus" "Virus" 2 (by decide)

/-- C2: each retained cell `(i, j)` of a rendered matrix is the `logCell`
image of its own input cell — the one of the `i`-th retained row (the row
named by the output's `i`-th taxon, a row of the input table) at the `j`-th
kept sample-column index (the column named by the output's `j`-th column
name): `log10` of that raw value when it is positive, and exactly `0` when
that raw value is `0`. -/
theorem c2_log_transform (df : AbundanceTable) (level : String) (N : ℕ)
    (sk : String) (cs ct : Bool) (m : ReducedMatrix) (hwf : WF df)
    (hres : generate_heatmap df level N sk cs ct = .ok (.rendered m))
    (i j : ℕ) (hi : i < m.cells.length)
    (hj : j < (m.cells.getD i []).length) :
    ∃ (hi' : i < (topRows df sk level N).length)
      (hj' : j < (keptIndices df (topRows df sk level N)).length),
      (topRows df sk level N).get ⟨i, hi'⟩ ∈ df.rows ∧
      (keptIndices df (topRows df sk level N)).get ⟨j, hj'⟩ <
        ((topRows df sk level N).get ⟨i, hi'⟩).counts.length ∧
      m.taxa.getD i "" = ((topRows df sk level N).get ⟨i, hi'⟩).taxon ∧
      m.sampleCols.getD j "" = df.sampleCols.getD
        ((keptIndices df (topRows df sk level N)).get ⟨j, hj'⟩) "" ∧
      (m.cells.getD i []).getD j 0 =
        logCell (((topRows df sk level N).get ⟨i, hi'⟩).counts.getD
          ((keptIndices df (topRows df sk level N)).get ⟨j, hj'⟩) 0) ∧
      (0 < ((topRows df sk level N).get ⟨i, hi'⟩).counts.getD
          ((keptIndices df (topRows df sk level N)).get ⟨j, hj'⟩) 0 →
        (m.cells.getD i []).getD j 0 =
          Real.logb 10
            ((((topRows df sk level N).get ⟨i, hi'⟩).counts.getD
              ((keptIndices df (topRows df sk level N)).get ⟨j, hj'⟩) 0 :
                ℚ) : ℝ)) ∧
      (((topRows df sk level N).get ⟨i, hi'⟩).counts.getD
          ((keptIndices df (topRows df sk level N)).get ⟨j, hj'⟩) 0 = 0 →
        (m.cells.getD i []).getD j 0 = 0) := by
  obtain ⟨hsk, hlen, hm⟩ := rendered_eq hres
  rw [hm] at hi hj ⊢
  have hi' : i < (topRows df sk level N).length := by
    rwa [buildMatrix_cells_length] at hi
  have hj' : j < (keptIndices df (topRows df sk level N)).length := by
    rwa [buildMatrix_row_length _ _ _ _ hi'] at hj
  have hrmem : (topRows df sk level N).get ⟨i, hi'⟩ ∈ df.rows :=
    topRows_subset (List.get_mem _ _ _)
  have hkmem : (keptIndices df (topRows df sk level N)).get ⟨j, hj'⟩ ∈
      keptIndices df (topRows df sk level N) := List.get_mem _ _ _
  have hklt : (keptIndices df (topRows df sk level N)).get ⟨j, hj'⟩ <
      ((topRows df sk level N).get ⟨i, hi'⟩).counts.length := by
    rw [hwf _ hrmem]
    exact (mem_keptIndices.mp hkmem).1
  refine ⟨hi', hj', hrmem, hklt, ?_, ?_, ?_, ?_, ?_⟩
  · simp only [buildMatrix]
    rw [getD_map_of_lt _ _ _ hi']
  · simp only [buildMatrix]
    rw [getD_map_of_lt _ _ _ hj']
  · exact buildMatrix_cell df _ _ _ hi' hj'
  · intro hpos
    rw [buildMatrix_cell df _ _ _ hi' hj', logCell_of_pos hpos]
  · intro h0
    rw [buildMatrix_cell df _ _ _ hi' hj', h0, logCell_of_zero]

/-- Witness for C2: a single viral genus row with raw values `[10, 0]`; the
zero column is pruned and the surviving cell `(0, 0)` is `logCell 10`, the
image of its own input cell. -/
theorem c2_log_transform_witness :
    ∃ (hi' : 0 < (topRows ⟨["s1", "s2"],
        [⟨"t", "Viruses", "genus", [10, 0]⟩]⟩ "Virus" "genus" 5).length)
      (hj' : 0 < (keptIndices ⟨["s1", "s2"],
        [⟨"t", "Viruses", "genus", [10, 0]⟩]⟩
        (topRows ⟨["s1", "s2"], [⟨"t", "Viruses", "genus", [10, 0]⟩]⟩
          "Virus" "genus" 5)).length),
      (topRows ⟨["s1", "s2"], [⟨"t", "Viruses", "genus", [10, 0]⟩]⟩
          "Virus" "genus" 5).get ⟨0, hi'⟩ ∈
        (⟨["s1", "s2"], [⟨"t", "Viruses", "genus", [10, 0]⟩]⟩ :
          AbundanceTable).rows ∧
      (keptIndices ⟨["s1", "s2"], [⟨"t", "Viruses", "genus", [10, 0]⟩]⟩
          (topRows ⟨["s1", "s2"], [⟨"t", "Viruses", "genus", [10, 0]⟩]⟩
            "Virus" "genus" 5)).get ⟨0, hj'⟩ <
        ((topRows ⟨["s1", "s2"], [⟨"t", "Viruses", "genus", [10, 0]⟩]⟩
          "Virus" "genus" 5).get ⟨0, hi'⟩).counts.length ∧
      (⟨["s1"], ["t"], [[logCell 10]], .plain⟩ :
          ReducedMatrix).taxa.getD 0 "" =
        ((topRows ⟨["s1", "s2"], [⟨"t", "Viruses", "genus", [10, 0]⟩]⟩
          "Virus" "genus" 5).get ⟨0, hi'⟩).taxon ∧
      (⟨["s1"], ["t"], [[logCell 10]], .plain⟩ :
          ReducedMatrix).sampleCols.getD 0 "" =
        (⟨["s1", "s2"], [⟨"t", "Viruses", "genus", [10, 0]⟩]⟩ :
          AbundanceTable).sampleCols.getD
          ((keptIndices ⟨["s1", "s2"], [⟨"t", "Viruses", "genus", [10, 0]⟩]⟩
            (topRows ⟨["s1", "s2"], [⟨"t", "Viruses", "genus", [10, 0]⟩]⟩
              "Virus" "genus" 5)).get ⟨0, hj'⟩) "" ∧
      ((⟨["s1"], ["t"], [[logCell 10]], .plain⟩ :
          ReducedMatrix).cells.getD 0 []).getD 0 0 =
        logCell (((topRows ⟨["s1", "s2"],
            [⟨"t", "Viruses", "genus", [10, 0]⟩]⟩
            "Virus" "genus" 5).get ⟨0, hi'⟩).counts.getD
          ((keptIndices ⟨["s1", "s2"], [⟨"t", "Viruses", "genus", [10, 0]⟩]⟩
            (topRows ⟨["s1", "s2"], [⟨"t", "Viruses", "genus", [10, 0]⟩]⟩
              "Virus" "genus" 5)).get ⟨0, hj'⟩) 0) ∧
      (0 < ((topRows ⟨["s1", "s2"], [⟨"t", "Viruses", "genus", [10, 0]⟩]⟩
            "Virus" "genus" 5).get ⟨0, hi'⟩).counts.getD
          ((keptIndices ⟨["s1", "s2"], [⟨"t", "Viruses", "genus", [10, 0]⟩]⟩
            (topRows ⟨["s1", "s2"], [⟨"t", "Viruses", "genus", [10, 0]⟩]⟩
              "Virus" "genus" 5)).get ⟨0, hj'⟩) 0 →
        ((⟨["s1"], ["t"], [[logCell 10]], .plain⟩ :
            ReducedMatrix).cells.getD 0 []).getD 0 0 =
          Real.logb 10
            ((((topRows ⟨["s1", "s2"],
                [⟨"t", "Viruses", "genus", [10, 0]⟩]⟩
                "Virus" "genus" 5).get ⟨0, hi'⟩).counts.getD
              ((keptIndices ⟨["s1", "s2"],
                [⟨"t", "Viruses", "genus", [10, 0]⟩]⟩
                (topRows ⟨["s1", "s2"],
                  [⟨"t", "Viruses", "genus", [10, 0]⟩]⟩
                  "Virus" "genus" 5)).get ⟨0, hj'⟩) 0 : ℚ) : ℝ)) ∧
      (((topRows ⟨["s1", "s2"], [⟨"t", "Viruses", "genus", [10, 0]⟩]⟩
            "Virus" "genus" 5).get ⟨0, hi'⟩).counts.getD
          ((keptIndices ⟨["s1", "s2"], [⟨"t", "Viruses", "genus", [10, 0]⟩]⟩
            (topRows ⟨["s1", "s2"], [⟨"t", "Viruses", "genus", [10, 0]⟩]⟩
              "Virus" "genus" 5)).get ⟨0, hj'⟩) 0 = 0 →
        ((⟨["s1"], ["t"], [[logCell 10]], .plain⟩ :
            ReducedMatrix).cells.getD 0 []).getD 0 0 = 0) :=
  c2_log_transform ⟨["s1", "s2"], [⟨"t", "Viruses", "genus", [10, 0]⟩]⟩
    "genus" 5 "Virus" true true ⟨["s1"], ["t"], [[logCell 10]], .plain⟩
    (by intro r hr; simp at hr; subst hr; rfl) rfl 0 0
    (by simp) (by simp)

/-- C3: a sample column whose post-log values are all exactly zero across
the retained rows is dropped, and every sample column of a rendered matrix
has at least one non-zero value across its rows. -/
theorem c3_column_pruning (df : AbundanceTable) (level : String) (N : ℕ)
    (sk : String) (cs ct : Bool) (m : ReducedMatrix)
    (hnodup : df.sampleCols.Nodup)
    (hres : generate_heatmap df level N sk cs ct = .ok (.rendered m)) :
    (∀ k, (hk : k < df.sampleCols.length) →
      (∀ r ∈ topRows df sk level N, logCell (r.counts.getD k 0) = 0) →
      df.sampleCols[k] ∉ m.sampleCols) ∧
    (∀ j, j < m.sampleCols.length →
      ∃ i, i < m.cells.length ∧ (m.cells.getD i []).getD j 0 ≠ 0) := by
  obtain ⟨hsk, hlen, hm⟩ := rendered_eq hres
  rw [hm]
  constructor
  · intro k hk hzero hmem
    simp only [buildMatrix, List.mem_map] at hmem
    obtain ⟨j, hjmem, hjeq⟩ := hmem
    obtain ⟨hjlt, hjkeep⟩ := mem_keptIndices.mp hjmem
    rw [List.getD_eq_getElem _ _ hjlt] at hjeq
    have hjk : j = k := (hnodup.getElem_inj_iff).mp hjeq
    subst hjk
    obtain ⟨r, hrmem, hrnz⟩ := keepColumn_iff.mp hjkeep
    exact hrnz (hzero r hrmem)
  · intro j hj
    have hj' : j < (keptIndices df (topRows df sk level N)).length := by
      simpa [buildMatrix] using hj
    have hkmem : (keptIndices df (topRows df sk level N)).get ⟨j, hj'⟩ ∈
        keptIndices df (topRows df sk level N) := List.get_mem _ _ _
    obtain ⟨hklt, hkeep⟩ := mem_keptIndices.mp hkmem
    obtain ⟨r, hrmem, hrnz⟩ := keepColumn_iff.mp hkeep
    obtain ⟨i, hi, hieq⟩ := List.mem_iff_getElem.mp hrmem
    refine ⟨i, ?_, ?_⟩
    · simpa [buildMatrix] using hi
    · rw [buildMatrix_cell df (topRows df sk level N)
        (keptIndices df (topRows df sk level N)) _ hi hj']
      rw [List.get_eq_getElem, hieq]
      exact hrnz

/-- Witness for C3 on the single-row table with raw values `[10, 0]`: the
all-zero column `s2` is pruned and the surviving column has a non-zero
cell. -/
theorem c3_column_pruning_witness :
    (∀ k, (hk : k < (⟨["s1", "s2"], [⟨"t", "Viruses", "genus", [10, 0]⟩]⟩ :
        AbundanceTable).sampleCols.length) →
      (∀ r ∈ topRows ⟨["s1", "s2"], [⟨"t", "Viruses", "genus", [10, 0]⟩]⟩
          "Virus" "genus" 5, logCell (r.counts.getD k 0) = 0) →
      (⟨["s1", "s2"], [⟨"t", "Viruses", "genus", [10, 0]⟩]⟩ :
          AbundanceTable).sampleCols[k] ∉
        (⟨["s1"], ["t"], [[logCell 10]], .plain⟩ :
          ReducedMatrix).sampleCols) ∧
    (∀ j, j < (⟨["s1"], ["t"], [[logCell 10]], .plain⟩ :
        ReducedMatrix).sampleCols.length →
      ∃ i, i < (⟨["s1"], ["t"], [[logCell 10]], .plain⟩ :
          ReducedMatrix).cells.length ∧
        (((⟨["s1"], ["t"], [[logCell 10]], .plain⟩ :
            ReducedMatrix).cells.getD i []).getD j 0 ≠ 0)) :=
  c3_column_pruning ⟨["s1", "s2"], [⟨"t", "Viruses", "genus", [10, 0]⟩]⟩
    "genus" 5 "Virus" true true ⟨["s1"], ["t"], [[logCell 10]], .plain⟩
    (by decide) rfl

/-- C6: the rendering mode is a function of the retained row count — one
row gives the plain heatmap with no clustering arguments, two or more rows
give the clustered heatmap receiving the clustering flags verbatim and the
per-row domain labels as row colors. -/
theorem c6_render_mode (df : AbundanceTable) (level : String) (N : ℕ)
    (sk : String) (cs ct : Bool) (m : ReducedMatrix)
    (hres : generate_heatmap df level N sk cs ct = .ok (.rendered m)) :
    (m.taxa.length = 1 → m.mode = .plain) ∧
    (m.taxa.length = 1 → ∀ cs' ct' : Bool,
      generate_heatmap df level N sk cs' ct' = .ok (.rendered m)) ∧
    (2 ≤ m.taxa.length →
      ∃ colors : List String,
        m.mode = .clustered cs ct colors ∧
        colors.length = m.taxa.length ∧
        ∀ i, (hi : i < colors.length) →
          ∃ r ∈ df.rows, r.taxon = m.taxa.getD i "" ∧
            colors.getD i "" = r.superkingdom) := by
  obtain ⟨hsk, hlen, hm⟩ := rendered_eq hres
  have htaxa : m.taxa.length = (topRows df sk level N).length := by
    rw [hm]; simp [buildMatrix]
  refine ⟨?_, ?_, ?_⟩
  · intro h1
    have h1' : (topRows df sk level N).length = 1 := by rw [← htaxa]; exact h1
    rw [hm]
    simp only [buildMatrix]
    rw [if_pos h1']
  · intro h1 cs' ct'
    have h1' : (topRows df sk level N).length = 1 := by rw [← htaxa]; exact h1
    rw [generate_heatmap_valid hsk, if_neg (by omega), if_pos h1', hm,
      if_pos h1']
  · intro h2
    have hne : (topRows df sk level N).length ≠ 1 := by
      rw [← htaxa]; omega
    refine ⟨(topRows df sk level N).map (·.superkingdom), ?_, ?_, ?_⟩
    · rw [hm]
      simp only [buildMatrix]
      rw [if_neg hne]
    · rw [htaxa, List.length_map]
    · intro i hi
      have hi' : i < (topRows df sk level N).length := by
        simpa using hi
      refine ⟨(topRows df sk level N).get ⟨i, hi'⟩,
        topRows_subset (List.get_mem _ _ _), ?_, ?_⟩
      · rw [hm]
        simp only [buildMatrix]
        rw [getD_map_of_lt _ _ _ hi']
      · rw [getD_map_of_lt _ _ _ hi']

/-- Witness for C6: two viral genus rows with distinct clustering flags; the
mode is clustered with the flags passed verbatim. -/
theorem c6_render_mode_witness :
    ((⟨["s1"], ["b", "a"], [[logCell 100], [logCell 10]],
        .clustered false true ["Viruses", "Viruses"]⟩ :
          ReducedMatrix).taxa.length = 1 →
      (⟨["s1"], ["b", "a"], [[logCell 100], [logCell 10]],
        .clustered false true ["Viruses", "Viruses"]⟩ :
          ReducedMatrix).mode = .plain) ∧
    ((⟨["s1"], ["b", "a"], [[logCell 100], [logCell 10]],
        .clustered false true ["Viruses", "Viruses"]⟩ :
          ReducedMatrix).taxa.length = 1 →
      ∀ cs' ct' : Bool,
        generate_heatmap ⟨["s1"], [⟨"a", "Viruses", "genus", [10]⟩,
            ⟨"b", "Viruses", "genus", [100]⟩]⟩ "genus" 5 "Virus" cs' ct' =
          .ok (.rendered ⟨["s1"], ["b", "a"],
            [[logCell 100], [logCell 10]],
            .clustered false true ["Viruses", "Viruses"]⟩)) ∧
    (2 ≤ (⟨["s1"], ["b", "a"], [[logCell 100], [logCell 10]],
        .clustered false true ["Viruses", "Viruses"]⟩ :
          ReducedMatrix).taxa.length →
      ∃ colors : List String,
        (⟨["s1"], ["b", "a"], [[logCell 100], [logCell 10]],
          .clustered false true ["Viruses", "Viruses"]⟩ :
            ReducedMatrix).mode = .clustered false true colors ∧
        colors.length = (⟨["s1"], ["b", "a"], [[logCell 100], [logCell 10]],
          .clustered false true ["Viruses", "Viruses"]⟩ :
            ReducedMatrix).taxa.length ∧
        ∀ i, (hi : i < colors.length) →
          ∃ r ∈ (⟨["s1"], [⟨"a", "Viruses", "genus", [10]⟩,
              ⟨"b", "Viruses", "genus", [100]⟩]⟩ : AbundanceTable).rows,
            r.taxon = (⟨["s1"], ["b", "a"],
              [[logCell 100], [logCell 10]],
              .clustered false true ["Viruses", "Viruses"]⟩ :
                ReducedMatrix).taxa.getD i "" ∧
            colors.getD i "" = r.superkingdom) :=
  c6_render_mode ⟨["s1"], [⟨"a", "Viruses", "genus", [10]⟩,
      ⟨"b", "Viruses", "genus", [100]⟩]⟩ "genus" 5 "Virus" false true
    ⟨["s1"], ["b", "a"], [[logCell 100], [logCell 10]],
      .clustered false true ["Viruses", "Viruses"]⟩ (by
    have hfil : filteredRows ⟨["s1"], [⟨"a", "Viruses", "genus", [10]⟩,
        ⟨"b", "Viruses", "genus", [100]⟩]⟩ "Virus" "genus" =
        [⟨"a", "Viruses", "genus", [10]⟩, ⟨"b", "Viruses", "genus", [100]⟩] := by
      decide
    have hcmp : ¬ byMeanDesc ⟨"a", "Viruses", "genus", [10]⟩
        ⟨"b", "Viruses", "genus", [100]⟩ := by
      norm_num [byMeanDesc, agg_mean]
    have hsort : List.insertionSort byMeanDesc
        [(⟨"a", "Viruses", "genus", [10]⟩ : Row),
         ⟨"b", "Viruses", "genus", [100]⟩] =
        [⟨"b", "Viruses", "genus", [100]⟩, ⟨"a", "Viruses", "genus", [10]⟩] := by
      simp [List.insertionSort, List.orderedInsert, hcmp]
    have htop : topRows ⟨["s1"], [⟨"a", "Viruses", "genus", [10]⟩,
        ⟨"b", "Viruses", "genus", [100]⟩]⟩ "Virus" "genus" 5 =
        [⟨"b", "Viruses", "genus", [100]⟩, ⟨"a", "Viruses", "genus", [10]⟩] := by
      simp only [topRows, hfil, hsort]
      rfl
    have hkept : keptIndices ⟨["s1"], [⟨"a", "Viruses", "genus", [10]⟩,
          ⟨"b", "Viruses", "genus", [100]⟩]⟩
        [⟨"b", "Viruses", "genus", [100]⟩, ⟨"a", "Viruses", "genus", [10]⟩] =
        [0] := by decide
    rw [generate_heatmap_valid (by decide), htop, hkept]
    simp [buildMatrix])

/-- C9: the empty-versus-rendered decision depends only on the row count:
on a table whose matching rows all have raw values in `{0, 1}` every sample
column is pruned, yet the result is a rendered matrix with rows and zero
sample columns, not the empty result. -/
theorem c9_rows_without_columns :
    generate_heatmap ⟨["s1", "s2"],
        [⟨"t1", "Viruses", "genus", [1, 0]⟩,
         ⟨"t2", "Bacteria", "genus", [0, 1]⟩]⟩ "genus" 5 "all" true false =
      .ok (.rendered ⟨[], ["t1", "t2"], [[], []],
        .clustered true false ["Viruses", "Bacteria"]⟩) ∧
    generate_heatmap ⟨["s1", "s2"],
        [⟨"t1", "Viruses", "genus", [1, 0]⟩,
         ⟨"t2", "Bacteria", "genus", [0, 1]⟩]⟩ "genus" 5 "all" true false ≠
      .ok .empty := by
  have hfil : filteredRows ⟨["s1", "s2"],
      [⟨"t1", "Viruses", "genus", [1, 0]⟩,
       ⟨"t2", "Bacteria", "genus", [0, 1]⟩]⟩ "all" "genus" =
      [⟨"t1", "Viruses", "genus", [1, 0]⟩,
       ⟨"t2", "Bacteria", "genus", [0, 1]⟩] := by decide
  have hcmp : byMeanDesc ⟨"t1", "Viruses", "genus", [1, 0]⟩
      ⟨"t2", "Bacteria", "genus", [0, 1]⟩ := by
    norm_num [byMeanDesc, agg_mean]
  have hsort : List.insertionSort byMeanDesc
      [(⟨"t1", "Viruses", "genus", [1, 0]⟩ : Row),
       ⟨"t2", "Bacteria", "genus", [0, 1]⟩] =
      [⟨"t1", "Viruses", "genus", [1, 0]⟩,
       ⟨"t2", "Bacteria", "genus", [0, 1]⟩] := by
    simp [List.insertionSort, List.orderedInsert, hcmp]
  have htop : topRows ⟨["s1", "s2"],
      [⟨"t1", "Viruses", "genus", [1, 0]⟩,
       ⟨"t2", "Bacteria", "genus", [0, 1]⟩]⟩ "all" "genus" 5 =
      [⟨"t1", "Viruses", "genus", [1, 0]⟩,
       ⟨"t2", "Bacteria", "genus", [0, 1]⟩] := by
    simp only [topRows, hfil, hsort]
    rfl
  have hkept : keptIndices ⟨["s1", "s2"],
        [⟨"t1", "Viruses", "genus", [1, 0]⟩,
         ⟨"t2", "Bacteria", "genus", [0, 1]⟩]⟩
      [⟨"t1", "Viruses", "genus", [1, 0]⟩,
       ⟨"t2", "Bacteria", "genus", [0, 1]⟩] = [] := by decide
  have h1 : generate_heatmap ⟨["s1", "s2"],
      [⟨"t1", "Viruses", "genus", [1, 0]⟩,
       ⟨"t2", "Bacteria", "genus", [0, 1]⟩]⟩ "genus" 5 "all" true false =
      .ok (.rendered ⟨[], ["t1", "t2"], [[], []],
        .clustered true false ["Viruses", "Bacteria"]⟩) := by
    rw [generate_heatmap_valid (by decide), htop, hkept]
    simp [buildMatrix]
  refine ⟨h1, ?_⟩
  rw [h1]
  simp

end VirID
